import Mathlib

/-!
Shallow embedding of the FNIRSI DPS-150 protocol engine
(`dps150.py` and `pico_w/dps150_pico.py`).

Bytes are modelled as `Nat` (with explicit `% 256` where the source
wraps, and byte-hood hypotheses `b < 256` where the Python `bytearray`
construction would enforce it).  The inbound scanner
(`DPS150._read_loop` in `dps150.py`, `DPS150._process_buffer` in
`dps150_pico.py` -- the two are byte-for-byte the same algorithm) is
modelled by the recursive function `scan`; the field decoder
`DPS150._parse_data` by `parseData`; the outbound framing
`DPS150.send_command` by `send_command`.
-/

namespace DPS150

/-- Protocol constant `HEADER_INPUT = 0xf0` from `dps150.py`. -/
abbrev HEADER_INPUT : Nat := 0xf0

/-- Protocol constant `HEADER_OUTPUT = 0xf1` from `dps150.py`. -/
abbrev HEADER_OUTPUT : Nat := 0xf1

/-- Protocol constant `CMD_GET = 0xa1` from `dps150.py`. -/
abbrev CMD_GET : Nat := 0xa1

/-- Protocol constant `CMD_XXX_176 = 0xb0` from `dps150.py`. -/
abbrev CMD_XXX_176 : Nat := 0xb0

/-- Protocol constant `CMD_SET = 0xb1` from `dps150.py`. -/
abbrev CMD_SET : Nat := 0xb1

/-- Protocol constant `CMD_XXX_193 = 0xc1` from `dps150.py`. -/
abbrev CMD_XXX_193 : Nat := 0xc1

/-- Field id constants from `dps150.py`. -/
abbrev VOLTAGE_SET : Nat := 193

/-- Field id `MODEL_NAME = 222` from `dps150.py`. -/
abbrev MODEL_NAME : Nat := 222

/-- Field id `HARDWARE_VERSION = 223` from `dps150.py`. -/
abbrev HARDWARE_VERSION : Nat := 223

/-- Field id `FIRMWARE_VERSION = 224` from `dps150.py`. -/
abbrev FIRMWARE_VERSION : Nat := 224

/-- Field id `ALL = 255` from `dps150.py`. -/
abbrev ALL : Nat := 255

/-- The fixed 7-entry `PROTECTION_STATES` table from `dps150.py`. -/
def PROTECTION_STATES : List String :=
  ["", "OVP", "OCP", "OPP", "OTP", "LVP", "REP"]

/-- `DPS150.send_command` frame construction (`dps150.py` lines 170-179):
`c4 = len(c5)`, `c6 = (c3 + c4 + sum(c5)) % 0x100`,
`command = bytearray([c1, c2, c3, c4] + c5 + [c6])`. -/
def send_command (c1 c2 c3 : Nat) (c5 : List Nat) : List Nat :=
  [c1, c2, c3, c5.length] ++ c5 ++ [(c3 + c5.length + c5.sum) % 256]

/-- The packet-extraction loop of `DPS150._read_loop` (`dps150.py` lines
124-154) and `DPS150._process_buffer` (`dps150_pico.py` lines 136-166).
The Python loop `while i < len(buffer) - 6` walks an index `i` over the
buffer; on a `0xf0 0xa1` marker it reads `c3 = buffer[i+2]`,
`c4 = buffer[i+3]`, breaks if the frame is not complete
(`i + 4 + c4 >= len(buffer)`), otherwise slices the payload
`c5 = buffer[i+4:i+4+c4]`, reads the checksum byte `c6`, truncates the
buffer past the frame and restarts at `i = 0`, emitting the packet
`(c3, c5)` only when the checksum matches.  Returns the packets in
order of extraction together with the retained buffer. -/
def scan (buffer : List Nat) (i : Nat) : List (Nat × List Nat) × List Nat :=
  if h : i + 6 < buffer.length then
    if buffer.getD i 0 = 0xf0 ∧ buffer.getD (i+1) 0 = 0xa1 then
      if buffer.length ≤ i + 4 + buffer.getD (i+3) 0 then
        ([], buffer)
      else
        if (buffer.getD (i+2) 0 + buffer.getD (i+3) 0 +
              ((buffer.drop (i+4)).take (buffer.getD (i+3) 0)).sum) % 256 =
            buffer.getD (i + 4 + buffer.getD (i+3) 0) 0 then
          ((buffer.getD (i+2) 0, (buffer.drop (i+4)).take (buffer.getD (i+3) 0)) ::
              (scan (buffer.drop (i + 4 + buffer.getD (i+3) 0 + 1)) 0).1,
            (scan (buffer.drop (i + 4 + buffer.getD (i+3) 0 + 1)) 0).2)
        else
          scan (buffer.drop (i + 4 + buffer.getD (i+3) 0 + 1)) 0
    else
      scan buffer (i+1)
  else
    ([], buffer)
termination_by (buffer.length, buffer.length - i)
decreasing_by
  · apply Prod.Lex.left
    simp only [List.length_drop]
    omega
  · apply Prod.Lex.left
    simp only [List.length_drop]
    omega
  · apply Prod.Lex.right
    omega

/-- One call of the inbound scanner on an accumulated buffer (the body
of the `in_waiting > 0` branch of `_read_loop`, starting at `i = 0`). -/
def processBuffer (buffer : List Nat) : List (Nat × List Nat) × List Nat :=
  scan buffer 0

/-- `struct.pack("<f", x)` bit pattern, for values of `x` that are
exactly representable as a normal IEEE-754 single-precision float
(the only inputs the repository sends; values needing rounding or a
subnormal/overflow encoding are outside the modelled domain and give
`none`).  Searches the biased exponent bracket, then checks the
23-bit significand is exact. -/
def float32bits (x : ℚ) : Option Nat :=
  if x = 0 then some 0 else
  let s : Nat := if x.num < 0 then 1 else 0
  let nn : Nat := x.num.natAbs
  let dd : Nat := x.den
  match (List.range 254).find? (fun i =>
      decide (2^i * dd ≤ nn * 2^126 ∧ nn * 2^126 < 2^(i+1) * dd)) with
  | none => none
  | some i =>
    if nn * 2^149 % (dd * 2^i) = 0 then
      let m := nn * 2^149 / (dd * 2^i)
      if 2^23 ≤ m ∧ m < 2^24 then
        some (s * 2^31 + (i+1) * 2^23 + (m - 2^23))
      else none
    else none

/-- The exact rational value of a finite IEEE-754 single-precision bit
pattern (`none` for the exponent-255 infinity/NaN patterns).  Used to
interpret the bit patterns produced by `struct.unpack("<f", ...)`. -/
def f32val (bits : Nat) : Option ℚ :=
  let s : Nat := bits / 2^31 % 2
  let e : Nat := bits / 2^23 % 256
  let m : Nat := bits % 2^23
  if e = 255 then none
  else
    let mag : ℚ :=
      if e = 0 then (m : ℚ) / ((2^149 : ℕ) : ℚ)
      else if e ≤ 150 then ((2^23 + m : ℕ) : ℚ) / ((2^(150-e) : ℕ) : ℚ)
      else ((2^23 + m : ℕ) : ℚ) * ((2^(e-150) : ℕ) : ℚ)
    some (if s = 1 then -mag else mag)

/-- The 4-byte little-endian list produced by `struct.pack("<f", x)`. -/
def struct_pack_f32 (x : ℚ) : Option (List Nat) :=
  (float32bits x).map (fun b => [b % 256, b / 256 % 256, b / 65536 % 256, b / 16777216 % 256])

/-- `DPS150.send_command_float` (`dps150.py` lines 181-184):
`c5 = list(struct.pack("<f", value))` then `send_command`. -/
def send_command_float (c1 c2 c3 : Nat) (value : ℚ) : Option (List Nat) :=
  (struct_pack_f32 value).map (send_command c1 c2 c3)

/-- `DPS150.set_float_value` (`dps150.py` lines 283-285):
`send_command_float(HEADER_OUTPUT, CMD_SET, type_, value)`. -/
def set_float_value (type_ : Nat) (value : ℚ) : Option (List Nat) :=
  send_command_float HEADER_OUTPUT CMD_SET type_ value

/-- The exact outbound frames of `DPS150._init_command` (`dps150.py`
lines 159-168), in order: stream-enable toggle `[1]`, baud-select `[5]`,
GET model name, GET hardware version, GET firmware version, GET ALL. -/
def init_commands : List (List Nat) :=
  [ send_command HEADER_OUTPUT CMD_XXX_193 0 [1],
    send_command HEADER_OUTPUT CMD_XXX_176 0 [5],
    send_command HEADER_OUTPUT CMD_GET MODEL_NAME [0],
    send_command HEADER_OUTPUT CMD_GET HARDWARE_VERSION [0],
    send_command HEADER_OUTPUT CMD_GET FIRMWARE_VERSION [0],
    send_command HEADER_OUTPUT CMD_GET ALL [0] ]

/-- A decoded snapshot value, as stored into the `data` dict of
`DPS150._parse_data`.  Python float values are represented by the raw
IEEE-754 single bit pattern the 4 payload bytes assemble to (two
Python floats from `struct.unpack("<f", ...)` are `==`-equal iff their
bit patterns agree, up to the signed-zero and NaN corner cases, none
of which the claims touch); `f32val` gives the numeric value. -/
inductive PValue where
  | float (bits : Nat)
  | byteVal (n : Nat)
  | boolVal (b : Bool)
  | strVal (s : String)
deriving DecidableEq

/-- `struct.unpack("<f", bs)`: requires exactly 4 bytes (a shorter
slice raises `struct.error`, modelled as `none`), and assembles them
little-endian into the bit pattern. -/
def unpack4 (bs : List Nat) : Option Nat :=
  match bs with
  | [b0, b1, b2, b3] => some (b0 + 256 * b1 + 65536 * b2 + 16777216 * b3)
  | _ => none

/-- `bytes.decode("ascii", errors="ignore")`: non-ASCII bytes are
silently dropped, the rest map to their characters. -/
def asciiIgnore (bs : List Nat) : String :=
  String.mk ((bs.filter (fun b => b < 128)).map Char.ofNat)

/-- The `c3 == 255` ("All Data") branch of `DPS150._parse_data`
(`dps150.py` lines 229-271).  The Python code builds one dict literal;
an exception raised by any entry (a short `struct.unpack` slice, an
out-of-range list index) aborts the whole packet, caught by the
enclosing `try`, so the result is all-or-nothing: `none` models the
aborted case in which no data is delivered. -/
def parse255 (c5 : List Nat) : Option (List (String × PValue)) :=
  match unpack4 ((c5.drop 0).take 4) with
  | none => none
  | some iv =>
   match unpack4 ((c5.drop 4).take 4) with
   | none => none
   | some sv =>
    match unpack4 ((c5.drop 8).take 4) with
    | none => none
    | some sc =>
     match unpack4 ((c5.drop 12).take 4) with
     | none => none
     | some ov =>
      match unpack4 ((c5.drop 16).take 4) with
      | none => none
      | some oc =>
       match unpack4 ((c5.drop 20).take 4) with
       | none => none
       | some op =>
        match unpack4 ((c5.drop 24).take 4) with
        | none => none
        | some tp =>
         match unpack4 ((c5.drop 28).take 4) with
         | none => none
         | some g1v =>
          match unpack4 ((c5.drop 32).take 4) with
          | none => none
          | some g1c =>
           match unpack4 ((c5.drop 36).take 4) with
           | none => none
           | some g2v =>
            match unpack4 ((c5.drop 40).take 4) with
            | none => none
            | some g2c =>
             match unpack4 ((c5.drop 44).take 4) with
             | none => none
             | some g3v =>
              match unpack4 ((c5.drop 48).take 4) with
              | none => none
              | some g3c =>
               match unpack4 ((c5.drop 52).take 4) with
               | none => none
               | some g4v =>
                match unpack4 ((c5.drop 56).take 4) with
                | none => none
                | some g4c =>
                 match unpack4 ((c5.drop 60).take 4) with
                 | none => none
                 | some g5v =>
                  match unpack4 ((c5.drop 64).take 4) with
                  | none => none
                  | some g5c =>
                   match unpack4 ((c5.drop 68).take 4) with
                   | none => none
                   | some g6v =>
                    match unpack4 ((c5.drop 72).take 4) with
                    | none => none
                    | some g6c =>
                     match unpack4 ((c5.drop 76).take 4) with
                     | none => none
                     | some ovp =>
                      match unpack4 ((c5.drop 80).take 4) with
                      | none => none
                      | some ocp =>
                       match unpack4 ((c5.drop 84).take 4) with
                       | none => none
                       | some opp =>
                        match unpack4 ((c5.drop 88).take 4) with
                        | none => none
                        | some otp =>
                         match unpack4 ((c5.drop 92).take 4) with
                         | none => none
                         | some lvp =>
                          match c5[96]? with
                          | none => none
                          | some b96 =>
                           match c5[97]? with
                           | none => none
                           | some b97 =>
                            match c5[98]? with
                            | none => none
                            | some b98 =>
                             match unpack4 ((c5.drop 99).take 4) with
                             | none => none
                             | some capc =>
                              match unpack4 ((c5.drop 103).take 4) with
                              | none => none
                              | some ener =>
                               match c5[107]? with
                               | none => none
                               | some b107 =>
                                match c5[108]? with
                                | none => none
                                | some b108 =>
                                 match PROTECTION_STATES[b108]? with
                                 | none => none
                                 | some ps =>
                                  match c5[109]? with
                                  | none => none
                                  | some b109 =>
                                   match unpack4 ((c5.drop 111).take 4) with
                                   | none => none
                                   | some ulv =>
                                    match unpack4 ((c5.drop 115).take 4) with
                                    | none => none
                                    | some ulc =>
                                     some [("inputVoltage", PValue.float iv),
                                      ("setVoltage", PValue.float sv),
                                      ("setCurrent", PValue.float sc),
                                      ("outputVoltage", PValue.float ov),
                                      ("outputCurrent", PValue.float oc),
                                      ("outputPower", PValue.float op),
                                      ("temperature", PValue.float tp),
                                      ("group1setVoltage", PValue.float g1v),
                                      ("group1setCurrent", PValue.float g1c),
                                      ("group2setVoltage", PValue.float g2v),
                                      ("group2setCurrent", PValue.float g2c),
                                      ("group3setVoltage", PValue.float g3v),
                                      ("group3setCurrent", PValue.float g3c),
                                      ("group4setVoltage", PValue.float g4v),
                                      ("group4setCurrent", PValue.float g4c),
                                      ("group5setVoltage", PValue.float g5v),
                                      ("group5setCurrent", PValue.float g5c),
                                      ("group6setVoltage", PValue.float g6v),
                                      ("group6setCurrent", PValue.float g6c),
                                      ("overVoltageProtection", PValue.float ovp),
                                      ("overCurrentProtection", PValue.float ocp),
                                      ("overPowerProtection", PValue.float opp),
                                      ("overTemperatureProtection", PValue.float otp),
                                      ("lowVoltageProtection", PValue.float lvp),
                                      ("brightness", PValue.byteVal b96),
                                      ("volume", PValue.byteVal b97),
                                      ("meteringClosed", PValue.boolVal (decide (b98 = 0))),
                                      ("outputCapacity", PValue.float capc),
                                      ("outputEnergy", PValue.float ener),
                                      ("outputClosed", PValue.boolVal (decide (b107 = 1))),
                                      ("protectionState", PValue.strVal ps),
                                      ("mode", PValue.strVal (if b109 = 0 then "CC" else "CV")),
                                      ("upperLimitVoltage", PValue.float ulv),
                                      ("upperLimitCurrent", PValue.float ulc)]

/-- `DPS150._parse_data` (`dps150.py` lines 193-277), as the list of
(key, value) pairs delivered to the callback for one checksum-valid
packet.  The whole `if/elif` chain and the `callback` call sit inside
one `try`, so any exception inside a branch (short unpack slice,
out-of-range index) yields no delivery at all: those cases return `[]`.
An empty result means the callback is not invoked (`if data:`). -/
def parseData (c3 : Nat) (c5 : List Nat) : List (String × PValue) :=
  if c3 = 192 then
    match unpack4 (c5.take 4) with
    | some v => [("inputVoltage", PValue.float v)]
    | none => []
  else if c3 = 195 then
    match unpack4 (c5.take 4), unpack4 ((c5.drop 4).take 4), unpack4 ((c5.drop 8).take 4) with
    | some a, some b, some c =>
        [("outputVoltage", PValue.float a), ("outputCurrent", PValue.float b),
         ("outputPower", PValue.float c)]
    | _, _, _ => []
  else if c3 = 196 then
    match unpack4 (c5.take 4) with
    | some v => [("temperature", PValue.float v)]
    | none => []
  else if c3 = 217 then
    match unpack4 (c5.take 4) with
    | some v => [("outputCapacity", PValue.float v)]
    | none => []
  else if c3 = 218 then
    match unpack4 (c5.take 4) with
    | some v => [("outputEnergy", PValue.float v)]
    | none => []
  else if c3 = 219 then
    match c5[0]? with
    | some b => [("outputClosed", PValue.boolVal (decide (b = 1)))]
    | none => []
  else if c3 = 220 then
    match c5[0]? with
    | some b =>
      match PROTECTION_STATES[b]? with
      | some s => [("protectionState", PValue.strVal s)]
      | none => []
    | none => []
  else if c3 = 221 then
    match c5[0]? with
    | some b => [("mode", PValue.strVal (if b = 0 then "CC" else "CV"))]
    | none => []
  else if c3 = 222 then [("modelName", PValue.strVal (asciiIgnore c5))]
  else if c3 = 223 then [("hardwareVersion", PValue.strVal (asciiIgnore c5))]
  else if c3 = 224 then [("firmwareVersion", PValue.strVal (asciiIgnore c5))]
  else if c3 = 226 then
    match unpack4 (c5.take 4) with
    | some v => [("upperLimitVoltage", PValue.float v)]
    | none => []
  else if c3 = 227 then
    match unpack4 (c5.take 4) with
    | some v => [("upperLimitCurrent", PValue.float v)]
    | none => []
  else if c3 = 255 then (parse255 c5).getD []
  else []

/-- The field ids for which `_parse_data` has a decode branch: exactly
the `if/elif` tests of `dps150.py` lines 201-229. -/
def DECODE_SLOTS : List Nat :=
  [192, 195, 196, 217, 218, 219, 220, 221, 222, 223, 224, 226, 227, 255]

/-- One feed of a byte buffer through scanner plus parser: the list of
per-packet update batches actually delivered to the callback (the
parser only calls back when its dict is nonempty). -/
def feedUpdates (buffer : List Nat) : List (List (String × PValue)) :=
  ((processBuffer buffer).1.map (fun pk => parseData pk.1 pk.2)).filter
    (fun d => !d.isEmpty)

/-- A frame encoded like `send_command` but with bit `k` of the
checksum byte flipped (the corruption considered by the checksum
rejection property). -/
def corruptChecksum (c1 c2 c3 : Nat) (c5 : List Nat) (k : Nat) : List Nat :=
  [c1, c2, c3, c5.length] ++ c5 ++ [((c3 + c5.length + c5.sum) % 256) ^^^ 2^k]

/-- A concrete 119-byte bulk payload used as a sample: inputVoltage 12.0,
setVoltage 5.0, setCurrent 1.5, outputVoltage 5.0, outputCurrent 1.5,
outputPower 7.5, temperature 28.5, groups and protections 0.0,
brightness 100, volume 3, meteringClosed byte 0, outputClosed byte 1,
protectionState byte 2, mode byte 1, remaining floats 0.0. -/
def sampleBulk : List Nat :=
  [0, 0, 64, 65, 0, 0, 160, 64, 0, 0, 192, 63, 0, 0, 160, 64, 0, 0, 192, 63, 0, 0, 240, 64, 0, 0, 228, 65, 0, 0, 0, 0, 0, 0, 0, 0, 0, 0, 0, 0, 0, 0, 0, 0, 0, 0, 0, 0, 0, 0, 0, 0, 0, 0, 0, 0, 0, 0, 0, 0, 0, 0, 0, 0, 0, 0, 0, 0, 0, 0, 0, 0, 0, 0, 0, 0, 0, 0, 0, 0, 0, 0, 0, 0, 0, 0, 0, 0, 0, 0, 0, 0, 0, 0, 0, 0, 100, 3, 0, 0, 0, 0, 0, 0, 0, 0, 0, 1, 2, 1, 0, 0, 0, 0, 0, 0, 0, 0, 0]

/-- A 119-byte bulk payload whose protection-state byte (offset 108)
is 7, one past the end of the 7-entry table; all other bytes zero. -/
def badBulk : List Nat :=
  [0, 0, 0, 0, 0, 0, 0, 0, 0, 0, 0, 0, 0, 0, 0, 0, 0, 0, 0, 0, 0, 0, 0, 0, 0, 0, 0, 0, 0, 0, 0, 0, 0, 0, 0, 0, 0, 0, 0, 0, 0, 0, 0, 0, 0, 0, 0, 0, 0, 0, 0, 0, 0, 0, 0, 0, 0, 0, 0, 0, 0, 0, 0, 0, 0, 0, 0, 0, 0, 0, 0, 0, 0, 0, 0, 0, 0, 0, 0, 0, 0, 0, 0, 0, 0, 0, 0, 0, 0, 0, 0, 0, 0, 0, 0, 0, 0, 0, 0, 0, 0, 0, 0, 0, 0, 0, 0, 0, 7, 0, 0, 0, 0, 0, 0, 0, 0, 0, 0]

/-- A 119-byte bulk payload with a perfectly decodable inputVoltage
float (12.0) but protection-state byte 9: every field other than the
protection state is individually decodable. -/
def badBulk2 : List Nat :=
  [0, 0, 64, 65, 0, 0, 0, 0, 0, 0, 0, 0, 0, 0, 0, 0, 0, 0, 0, 0, 0, 0, 0, 0, 0, 0, 0, 0, 0, 0, 0, 0, 0, 0, 0, 0, 0, 0, 0, 0, 0, 0, 0, 0, 0, 0, 0, 0, 0, 0, 0, 0, 0, 0, 0, 0, 0, 0, 0, 0, 0, 0, 0, 0, 0, 0, 0, 0, 0, 0, 0, 0, 0, 0, 0, 0, 0, 0, 0, 0, 0, 0, 0, 0, 0, 0, 0, 0, 0, 0, 0, 0, 0, 0, 0, 0, 0, 0, 0, 0, 0, 0, 0, 0, 0, 0, 0, 0, 9, 0, 0, 0, 0, 0, 0, 0, 0, 0, 0]

/-- A 119-byte bulk payload whose protection-state byte is 200; its
length and layout are exactly those of a bulk payload, yet the decode
delivers nothing. -/
def badBulk3 : List Nat :=
  [0, 0, 0, 0, 0, 0, 0, 0, 0, 0, 0, 0, 0, 0, 0, 0, 0, 0, 0, 0, 0, 0, 0, 0, 0, 0, 0, 0, 0, 0, 0, 0, 0, 0, 0, 0, 0, 0, 0, 0, 0, 0, 0, 0, 0, 0, 0, 0, 0, 0, 0, 0, 0, 0, 0, 0, 0, 0, 0, 0, 0, 0, 0, 0, 0, 0, 0, 0, 0, 0, 0, 0, 0, 0, 0, 0, 0, 0, 0, 0, 0, 0, 0, 0, 0, 0, 0, 0, 0, 0, 0, 0, 0, 0, 0, 0, 0, 0, 0, 0, 0, 0, 0, 0, 0, 0, 0, 0, 200, 0, 0, 0, 0, 0, 0, 0, 0, 0, 0]

/-! Helper lemmas about the scanner. -/

lemma scan_stop (B : List Nat) (i : Nat) (h : B.length ≤ i + 6) :
    scan B i = ([], B) := by
  rw [scan.eq_def]
  simp only [dif_neg (by omega : ¬ i + 6 < B.length)]

lemma scan_skip (B : List Nat) (i : Nat) (h6 : i + 6 < B.length)
    (hm : ¬(B.getD i 0 = 0xf0 ∧ B.getD (i+1) 0 = 0xa1)) :
    scan B i = scan B (i+1) := by
  rw [scan.eq_def]
  simp only [dif_pos h6, if_neg hm]

lemma getD_of_drop (B : List Nat) (i j : Nat) :
    B.getD (i + j) 0 = (B.drop i).getD j 0 := by
  simp [List.getD_eq_getElem?_getD, List.getElem?_drop]

lemma scan_frame (B : List Nat) (i f c6v : Nat) (p rest : List Nat)
    (hd : B.drop i = 0xf0 :: 0xa1 :: f :: p.length :: (p ++ c6v :: rest))
    (h2 : 2 ≤ p.length + rest.length) :
    scan B i = if (f + p.length + p.sum) % 256 = c6v
      then ((f, p) :: (scan rest 0).1, (scan rest 0).2)
      else scan rest 0 := by
  have hiB : i < B.length := by
    by_contra hcon
    have hnil : B.drop i = [] := List.drop_eq_nil_of_le (by omega)
    rw [hnil] at hd
    exact absurd hd (by simp)
  have hlenB : B.length = i + 5 + p.length + rest.length := by
    have hl := congrArg List.length hd
    simp [List.length_drop] at hl
    omega
  have h6 : i + 6 < B.length := by omega
  have g0 : B.getD i 0 = 0xf0 := by
    have hg := getD_of_drop B i 0
    rw [hd] at hg
    simpa using hg
  have g1 : B.getD (i+1) 0 = 0xa1 := by
    have hg := getD_of_drop B i 1
    rw [hd] at hg
    simpa using hg
  have g2 : B.getD (i+2) 0 = f := by
    have hg := getD_of_drop B i 2
    rw [hd] at hg
    simpa using hg
  have g3 : B.getD (i+3) 0 = p.length := by
    have hg := getD_of_drop B i 3
    rw [hd] at hg
    simpa using hg
  have hdrop4 : B.drop (i+4) = p ++ c6v :: rest := by
    rw [← List.drop_drop, hd]
    rfl
  have gc6 : B.getD (i + 4 + p.length) 0 = c6v := by
    have hg := getD_of_drop B (i+4) p.length
    rw [hdrop4] at hg
    rw [hg]
    simp [List.getD_eq_getElem?_getD, List.getElem?_append_right (le_refl p.length)]
  have hc5 : (B.drop (i+4)).take p.length = p := by
    rw [hdrop4]
    exact List.take_left' rfl
  have hbuf : B.drop (i + 4 + p.length + 1) = rest := by
    rw [show i + 4 + p.length + 1 = (i + 4) + (p.length + 1) from by omega,
      ← List.drop_drop, hdrop4, ← List.drop_drop, List.drop_left]
    rfl
  rw [scan.eq_def]
  simp only [dif_pos h6, g0, g1, g2, g3]
  rw [if_pos ⟨trivial, trivial⟩, if_neg (by omega : ¬ B.length ≤ i + 4 + p.length)]
  rw [hc5, gc6, hbuf]

lemma send_command_length (c1 c2 c3 : Nat) (p : List Nat) :
    (send_command c1 c2 c3 p).length = p.length + 5 := by
  simp [send_command]

lemma send_command_drop_zero (c1 c2 c3 : Nat) (p : List Nat) :
    (send_command c1 c2 c3 p).drop 0 =
      c1 :: c2 :: c3 :: p.length :: (p ++ ((c3 + p.length + p.sum) % 256) :: []) := by
  simp [send_command]

lemma processBuffer_encode (f : Nat) (p : List Nat) (h2 : 2 ≤ p.length) :
    processBuffer (send_command 0xf0 0xa1 f p) = ([(f, p)], []) := by
  have hs := scan_frame (send_command 0xf0 0xa1 f p) 0 f
    ((f + p.length + p.sum) % 256) p []
    (send_command_drop_zero 0xf0 0xa1 f p) (by simpa using h2)
  rw [processBuffer, hs, if_pos rfl, scan_stop [] 0 (by simp)]

lemma not_eq_xor_two_pow (m k : Nat) : ¬ m = m ^^^ 2^k := by
  intro h
  have hb := congrArg (fun x => Nat.testBit x k) h
  simp [Nat.testBit_xor, Nat.testBit_two_pow_self] at hb

lemma processBuffer_corrupt (f : Nat) (p : List Nat) (k : Nat) (rest : List Nat) :
    (processBuffer (corruptChecksum 0xf0 0xa1 f p k ++ rest)).1 =
      (processBuffer rest).1 := by
  by_cases hc : 2 ≤ p.length + rest.length
  · have hd : (corruptChecksum 0xf0 0xa1 f p k ++ rest).drop 0 =
        0xf0 :: 0xa1 :: f :: p.length ::
          (p ++ (((f + p.length + p.sum) % 256) ^^^ 2^k) :: rest) := by
      simp [corruptChecksum]
    have hs := scan_frame _ 0 f _ p rest hd hc
    rw [processBuffer, hs, if_neg (not_eq_xor_two_pow ((f + p.length + p.sum) % 256) k)]
    rfl
  · have hlen : (corruptChecksum 0xf0 0xa1 f p k ++ rest).length =
        p.length + rest.length + 5 := by
      simp [corruptChecksum]
      omega
    rw [processBuffer, scan_stop _ 0 (by omega),
      processBuffer, scan_stop rest 0 (by omega)]


lemma processBuffer_incomplete (f : Nat) (p : List Nat) (n : Nat)
    (hn : n < (send_command 0xf0 0xa1 f p).length) :
    processBuffer ((send_command 0xf0 0xa1 f p).take n) =
      ([], (send_command 0xf0 0xa1 f p).take n) := by
  have hfl := send_command_length 0xf0 0xa1 f p
  have hAlen : ((send_command 0xf0 0xa1 f p).take n).length = n := by
    simp [List.length_take]
    omega
  by_cases h7 : n ≤ 6
  · exact scan_stop _ 0 (by omega)
  · have hget : ∀ j, j < n →
        ((send_command 0xf0 0xa1 f p).take n).getD j 0 =
          (send_command 0xf0 0xa1 f p).getD j 0 := by
      intro j hj
      simp [List.getD_eq_getElem?_getD, List.getElem?_take_of_lt hj]
    have hA0 : ((send_command 0xf0 0xa1 f p).take n).getD 0 0 = 0xf0 := by
      rw [hget 0 (by omega)]
      simp [send_command]
    have hA1 : ((send_command 0xf0 0xa1 f p).take n).getD 1 0 = 0xa1 := by
      rw [hget 1 (by omega)]
      simp [send_command]
    have hA3 : ((send_command 0xf0 0xa1 f p).take n).getD 3 0 = p.length := by
      rw [hget 3 (by omega)]
      simp [send_command, List.getD_eq_getElem?_getD]
    rw [processBuffer, scan.eq_def]
    simp only [dif_pos (by omega : 0 + 6 < ((send_command 0xf0 0xa1 f p).take n).length),
      hA0, hA1, hA3]
    rw [if_pos ⟨trivial, trivial⟩,
      if_pos (by omega : ((send_command 0xf0 0xa1 f p).take n).length ≤ 0 + 4 + p.length)]

lemma scan_skip_to (B : List Nat) (g : Nat)
    (hg : ∀ j, j < g → ¬(B.getD j 0 = 0xf0 ∧ B.getD (j+1) 0 = 0xa1))
    (hgB : g + 6 < B.length) :
    scan B 0 = scan B g := by
  have key : ∀ d i, i + d = g → scan B i = scan B g := by
    intro d
    induction d with
    | zero =>
      intro i hi
      rw [show i = g from by omega]
    | succ d ih =>
      intro i hi
      rw [scan_skip B i (by omega) (hg i (by omega)), ih (i+1) (by omega)]
  exact key g 0 (by omega)

lemma processBuffer_garbage (G : List Nat) (f : Nat) (p : List Nat)
    (hng : ∀ j, j < G.length → ¬(G.getD j 0 = 0xf0 ∧ G.getD (j+1) 0 = 0xa1))
    (h2 : 2 ≤ p.length) :
    processBuffer (G ++ send_command 0xf0 0xa1 f p) = ([(f, p)], []) := by
  have hfl := send_command_length 0xf0 0xa1 f p
  have hBlen : (G ++ send_command 0xf0 0xa1 f p).length = G.length + p.length + 5 := by
    simp [List.length_append]
    omega
  have hmem : ∀ j, j < G.length →
      ¬((G ++ send_command 0xf0 0xa1 f p).getD j 0 = 0xf0 ∧
        (G ++ send_command 0xf0 0xa1 f p).getD (j+1) 0 = 0xa1) := by
    intro j hj
    have hj0 : (G ++ send_command 0xf0 0xa1 f p).getD j 0 = G.getD j 0 := by
      simp [List.getD_eq_getElem?_getD, List.getElem?_append, hj]
    by_cases hje : j + 1 < G.length
    · have hj1 : (G ++ send_command 0xf0 0xa1 f p).getD (j+1) 0 = G.getD (j+1) 0 := by
        simp [List.getD_eq_getElem?_getD, List.getElem?_append, hje]
      rw [hj0, hj1]
      exact hng j hj
    · have hje2 : j + 1 = G.length := by omega
      have hj1 : (G ++ send_command 0xf0 0xa1 f p).getD (j+1) 0 = 0xf0 := by
        rw [hje2, List.getD_eq_getElem?_getD,
          List.getElem?_append_right (le_refl G.length), Nat.sub_self]
        simp [send_command]
      rw [hj1]
      intro hcon
      exact absurd hcon.2 (by norm_num)
  have hd : (G ++ send_command 0xf0 0xa1 f p).drop G.length =
      0xf0 :: 0xa1 :: f :: p.length :: (p ++ ((f + p.length + p.sum) % 256) :: []) := by
    rw [List.drop_left]
    simpa using send_command_drop_zero 0xf0 0xa1 f p
  rw [processBuffer, scan_skip_to _ G.length hmem (by omega),
    scan_frame _ G.length f ((f + p.length + p.sum) % 256) p [] hd (by simpa using h2),
    if_pos rfl, scan_stop [] 0 (by simp)]

/-! Helper lemmas about the parser. -/

lemma parseData_not_slot (c3 : Nat) (h : c3 ∉ DECODE_SLOTS) (c5 : List Nat) :
    parseData c3 c5 = [] := by
  simp [DECODE_SLOTS] at h
  obtain ⟨h1, h2, h3, h4, h5, h6, h7, h8, h9, h10, h11, h12, h13, h14⟩ := h
  simp [parseData, h1, h2, h3, h4, h5, h6, h7, h8, h9, h10, h11, h12, h13, h14]

/-- The little-endian 32-bit word assembled from the four payload bytes
starting at offset `k` (what `struct.unpack("<f", c5[k:k+4])` reads). -/
def bitsAt (c5 : List Nat) (k : Nat) : Nat :=
  c5.getD k 0 + 256 * c5.getD (k+1) 0 + 65536 * c5.getD (k+2) 0 +
    16777216 * c5.getD (k+3) 0

lemma take4_drop (c5 : List Nat) (k : Nat) (h : k + 4 ≤ c5.length) :
    (c5.drop k).take 4 =
      [c5.getD k 0, c5.getD (k+1) 0, c5.getD (k+2) 0, c5.getD (k+3) 0] := by
  rw [List.drop_eq_getElem_cons (show k < c5.length by omega),
    List.drop_eq_getElem_cons (show k+1 < c5.length by omega),
    List.drop_eq_getElem_cons (show k+2 < c5.length by omega),
    List.drop_eq_getElem_cons (show k+3 < c5.length by omega),
    List.getD_eq_getElem c5 0 (show k < c5.length by omega),
    List.getD_eq_getElem c5 0 (show k+1 < c5.length by omega),
    List.getD_eq_getElem c5 0 (show k+2 < c5.length by omega),
    List.getD_eq_getElem c5 0 (show k+3 < c5.length by omega)]
  rfl

lemma unpack4_slice (c5 : List Nat) (k : Nat) (h : k + 4 ≤ c5.length) :
    unpack4 ((c5.drop k).take 4) = some (bitsAt c5 k) := by
  rw [take4_drop c5 k h]
  rfl

lemma getElem?_getD (c5 : List Nat) (k : Nat) (h : k < c5.length) :
    c5[k]? = some (c5.getD k 0) := by
  rw [List.getD_eq_getElem c5 0 h, List.getElem?_eq_getElem h]

lemma PROTECTION_lookup (b : Nat) (hb : b < 7) :
    PROTECTION_STATES[b]? = some (PROTECTION_STATES.getD b "") := by
  have hlen : b < PROTECTION_STATES.length := by
    simp [PROTECTION_STATES]
    omega
  rw [List.getD_eq_getElem PROTECTION_STATES "" hlen, List.getElem?_eq_getElem hlen]

lemma parse255_eval (c5 : List Nat) (hlen : c5.length = 119) (hps : c5.getD 108 0 < 7) :
    parse255 c5 = some
      [("inputVoltage", PValue.float (bitsAt c5 0)),
       ("setVoltage", PValue.float (bitsAt c5 4)),
       ("setCurrent", PValue.float (bitsAt c5 8)),
       ("outputVoltage", PValue.float (bitsAt c5 12)),
       ("outputCurrent", PValue.float (bitsAt c5 16)),
       ("outputPower", PValue.float (bitsAt c5 20)),
       ("temperature", PValue.float (bitsAt c5 24)),
       ("group1setVoltage", PValue.float (bitsAt c5 28)),
       ("group1setCurrent", PValue.float (bitsAt c5 32)),
       ("group2setVoltage", PValue.float (bitsAt c5 36)),
       ("group2setCurrent", PValue.float (bitsAt c5 40)),
       ("group3setVoltage", PValue.float (bitsAt c5 44)),
       ("group3setCurrent", PValue.float (bitsAt c5 48)),
       ("group4setVoltage", PValue.float (bitsAt c5 52)),
       ("group4setCurrent", PValue.float (bitsAt c5 56)),
       ("group5setVoltage", PValue.float (bitsAt c5 60)),
       ("group5setCurrent", PValue.float (bitsAt c5 64)),
       ("group6setVoltage", PValue.float (bitsAt c5 68)),
       ("group6setCurrent", PValue.float (bitsAt c5 72)),
       ("overVoltageProtection", PValue.float (bitsAt c5 76)),
       ("overCurrentProtection", PValue.float (bitsAt c5 80)),
       ("overPowerProtection", PValue.float (bitsAt c5 84)),
       ("overTemperatureProtection", PValue.float (bitsAt c5 88)),
       ("lowVoltageProtection", PValue.float (bitsAt c5 92)),
       ("brightness", PValue.byteVal (c5.getD 96 0)),
       ("volume", PValue.byteVal (c5.getD 97 0)),
       ("meteringClosed", PValue.boolVal (decide (c5.getD 98 0 = 0))),
       ("outputCapacity", PValue.float (bitsAt c5 99)),
       ("outputEnergy", PValue.float (bitsAt c5 103)),
       ("outputClosed", PValue.boolVal (decide (c5.getD 107 0 = 1))),
       ("protectionState", PValue.strVal (PROTECTION_STATES.getD (c5.getD 108 0) "")),
       ("mode", PValue.strVal (if c5.getD 109 0 = 0 then "CC" else "CV")),
       ("upperLimitVoltage", PValue.float (bitsAt c5 111)),
       ("upperLimitCurrent", PValue.float (bitsAt c5 115))] := by
  simp only [parse255,
    unpack4_slice c5 0 (by omega), unpack4_slice c5 4 (by omega),
    unpack4_slice c5 8 (by omega), unpack4_slice c5 12 (by omega),
    unpack4_slice c5 16 (by omega), unpack4_slice c5 20 (by omega),
    unpack4_slice c5 24 (by omega), unpack4_slice c5 28 (by omega),
    unpack4_slice c5 32 (by omega), unpack4_slice c5 36 (by omega),
    unpack4_slice c5 40 (by omega), unpack4_slice c5 44 (by omega),
    unpack4_slice c5 48 (by omega), unpack4_slice c5 52 (by omega),
    unpack4_slice c5 56 (by omega), unpack4_slice c5 60 (by omega),
    unpack4_slice c5 64 (by omega), unpack4_slice c5 68 (by omega),
    unpack4_slice c5 72 (by omega), unpack4_slice c5 76 (by omega),
    unpack4_slice c5 80 (by omega), unpack4_slice c5 84 (by omega),
    unpack4_slice c5 88 (by omega), unpack4_slice c5 92 (by omega),
    unpack4_slice c5 99 (by omega), unpack4_slice c5 103 (by omega),
    unpack4_slice c5 111 (by omega), unpack4_slice c5 115 (by omega),
    getElem?_getD c5 96 (by omega), getElem?_getD c5 97 (by omega),
    getElem?_getD c5 98 (by omega), getElem?_getD c5 107 (by omega),
    getElem?_getD c5 108 (by omega), getElem?_getD c5 109 (by omega),
    PROTECTION_lookup (c5.getD 108 0) hps]

lemma parse255_bad_protection (c5 : List Nat) (hlen : c5.length = 119)
    (hps : 7 ≤ c5.getD 108 0) :
    parse255 c5 = none := by
  simp only [parse255,
    unpack4_slice c5 0 (by omega), unpack4_slice c5 4 (by omega),
    unpack4_slice c5 8 (by omega), unpack4_slice c5 12 (by omega),
    unpack4_slice c5 16 (by omega), unpack4_slice c5 20 (by omega),
    unpack4_slice c5 24 (by omega), unpack4_slice c5 28 (by omega),
    unpack4_slice c5 32 (by omega), unpack4_slice c5 36 (by omega),
    unpack4_slice c5 40 (by omega), unpack4_slice c5 44 (by omega),
    unpack4_slice c5 48 (by omega), unpack4_slice c5 52 (by omega),
    unpack4_slice c5 56 (by omega), unpack4_slice c5 60 (by omega),
    unpack4_slice c5 64 (by omega), unpack4_slice c5 68 (by omega),
    unpack4_slice c5 72 (by omega), unpack4_slice c5 76 (by omega),
    unpack4_slice c5 80 (by omega), unpack4_slice c5 84 (by omega),
    unpack4_slice c5 88 (by omega), unpack4_slice c5 92 (by omega),
    getElem?_getD c5 96 (by omega), getElem?_getD c5 97 (by omega),
    getElem?_getD c5 98 (by omega), unpack4_slice c5 99 (by omega),
    unpack4_slice c5 103 (by omega), getElem?_getD c5 107 (by omega),
    getElem?_getD c5 108 (by omega),
    List.getElem?_eq_none
      (show PROTECTION_STATES.length ≤ c5.getD 108 0 by
        have h7 : PROTECTION_STATES.length = 7 := rfl
        omega)]

/-! The claims. -/

/-- C1 (amended): for the inbound marker pair (header `0xF0`, command
`0xA1`), any fieldId byte, and any payload of bytes with
`2 ≤ len(payload) ≤ 255`, encoding with the `send_command` frame
construction and feeding the bytes to the inbound scanner from an empty
buffer decodes exactly one packet whose fieldId and payload equal the
encoded ones, leaving an empty remainder.  (As written the claim is
false: the scanner bound `i < len(buffer) - 6` never examines a
complete frame shorter than 7 bytes sitting at the end of the buffer,
so payloads of length 0 or 1 produce no packet; and a frame whose
header/command are not `0xF0 0xA1` is never matched.) -/
theorem encode_feed_roundtrip (f : Nat) (p : List Nat)
    (hf : f < 256) (hp : ∀ b ∈ p, b < 256) (h2 : 2 ≤ p.length)
    (h255 : p.length ≤ 255) :
    processBuffer (send_command HEADER_INPUT CMD_GET f p) = ([(f, p)], []) :=
  processBuffer_encode f p h2

/-- C1 witness: the theorem applied at fieldId 0, payload `[0, 0]`. -/
theorem encode_feed_roundtrip_witness :
    processBuffer (send_command HEADER_INPUT CMD_GET 0 [0, 0]) = ([(0, [0, 0])], []) :=
  encode_feed_roundtrip 0 [0, 0] (by decide) (by decide) (by decide) (by decide)

/-- C1 counterexample: a zero-length payload frame (header `0xF0`,
command `0xA1`, fieldId 7) feeds to zero packets with the whole frame
retained, and an outbound-header frame (`0xF1 0xB1`) with a 4-byte
payload also decodes to zero packets — both contradict the claimed
"exactly one packet" for every header, command and payload. -/
theorem encode_feed_roundtrip_counterexample :
    processBuffer (send_command HEADER_INPUT CMD_GET 7 []) =
      ([], [0xf0, 0xa1, 7, 0, 7]) ∧
    processBuffer (send_command HEADER_OUTPUT CMD_SET 7 [1, 2, 3, 4]) =
      ([], [0xf1, 0xb1, 7, 4, 1, 2, 3, 4, 21]) := by
  constructor
  · exact scan_stop _ 0 (by decide)
  · rw [show send_command HEADER_OUTPUT CMD_SET 7 [1, 2, 3, 4] =
        [0xf1, 0xb1, 7, 4, 1, 2, 3, 4, 21] from rfl]
    rw [processBuffer, scan_skip _ 0 (by decide) (by decide),
      scan_skip _ 1 (by decide) (by decide), scan_skip _ 2 (by decide) (by decide),
      scan_stop _ 3 (by decide)]

/-- C2: flipping any single bit `k < 8` of the checksum byte of an
encoded inbound frame makes the scanner drop that frame and emit zero
packets for it, and the packets decoded from any bytes following the
corrupted frame in the same buffer are exactly the packets those bytes
decode to on their own — a checksum mismatch never terminates the
scan. -/
theorem checksum_flip_dropped (f : Nat) (p : List Nat) (k : Nat) (rest : List Nat)
    (hf : f < 256) (hp : ∀ b ∈ p, b < 256) (h255 : p.length ≤ 255) (hk : k < 8) :
    (processBuffer (corruptChecksum HEADER_INPUT CMD_GET f p k)).1 = [] ∧
    (processBuffer (corruptChecksum HEADER_INPUT CMD_GET f p k ++ rest)).1 =
      (processBuffer rest).1 := by
  constructor
  · have h := processBuffer_corrupt f p k []
    rw [List.append_nil] at h
    rw [h, processBuffer, scan_stop [] 0 (by simp)]
  · exact processBuffer_corrupt f p k rest

/-- C2 witness: the theorem applied at fieldId 0, payload `[0, 0]`,
bit 0, followed by a valid frame for fieldId 5. -/
theorem checksum_flip_dropped_witness :
    (processBuffer (corruptChecksum HEADER_INPUT CMD_GET 0 [0, 0] 0)).1 = [] ∧
    (processBuffer (corruptChecksum HEADER_INPUT CMD_GET 0 [0, 0] 0 ++
        send_command HEADER_INPUT CMD_GET 5 [1, 2])).1 =
      (processBuffer (send_command HEADER_INPUT CMD_GET 5 [1, 2])).1 :=
  checksum_flip_dropped 0 [0, 0] 0 (send_command HEADER_INPUT CMD_GET 5 [1, 2])
    (by decide) (by decide) (by decide) (by decide)

/-- C3: `set_float_value(VOLTAGE_SET = 193, 5.0)` produces exactly the
nine wire bytes `[0xF1, 0xB1, 193, 4, 0x00, 0x00, 0xA0, 0x40, 165]`,
and 165 is `(193 + 4 + 0 + 0 + 0xA0 + 0x40) mod 256`. -/
theorem set_float_value_bytes :
    set_float_value VOLTAGE_SET 5 =
      some [0xf1, 0xb1, 193, 4, 0x00, 0x00, 0xa0, 0x40, 165] ∧
    165 = (193 + 4 + 0 + 0 + 0xa0 + 0x40) % 256 := by
  constructor
  · decide
  · decide

/-- C4: for every valid encoded inbound frame and every split point
`n`, feeding the first part in one scanner call and the remainder
appended to the retained buffer in a second call yields the same
decoded packets (and the same final buffer) as feeding the whole frame
at once. -/
theorem fragmentation_invariance (f : Nat) (p : List Nat) (n : Nat)
    (hf : f < 256) (hp : ∀ b ∈ p, b < 256) (h255 : p.length ≤ 255) :
    ((processBuffer ((send_command HEADER_INPUT CMD_GET f p).take n)).1 ++
       (processBuffer
         ((processBuffer ((send_command HEADER_INPUT CMD_GET f p).take n)).2 ++
           (send_command HEADER_INPUT CMD_GET f p).drop n)).1,
     (processBuffer
       ((processBuffer ((send_command HEADER_INPUT CMD_GET f p).take n)).2 ++
         (send_command HEADER_INPUT CMD_GET f p).drop n)).2) =
    processBuffer (send_command HEADER_INPUT CMD_GET f p) := by
  by_cases hn : n < (send_command HEADER_INPUT CMD_GET f p).length
  · rw [processBuffer_incomplete f p n hn]
    simp [List.take_append_drop]
  · push_neg at hn
    rw [List.take_of_length_le hn, List.drop_eq_nil_of_le hn, List.append_nil]
    by_cases h2 : 2 ≤ p.length
    · rw [processBuffer_encode f p h2]
      simp [processBuffer_encode f p h2, processBuffer, scan_stop ([] : List Nat) 0 (by simp)]
    · have hs : processBuffer (send_command HEADER_INPUT CMD_GET f p) =
          ([], send_command HEADER_INPUT CMD_GET f p) :=
        scan_stop _ 0 (by rw [send_command_length]; omega)
      rw [hs]
      simp [hs]

/-- C4 witness: the theorem applied at fieldId 1, payload `[2, 3]`,
split after the fourth byte. -/
theorem fragmentation_invariance_witness :
    ((processBuffer ((send_command HEADER_INPUT CMD_GET 1 [2, 3]).take 4)).1 ++
       (processBuffer
         ((processBuffer ((send_command HEADER_INPUT CMD_GET 1 [2, 3]).take 4)).2 ++
           (send_command HEADER_INPUT CMD_GET 1 [2, 3]).drop 4)).1,
     (processBuffer
       ((processBuffer ((send_command HEADER_INPUT CMD_GET 1 [2, 3]).take 4)).2 ++
         (send_command HEADER_INPUT CMD_GET 1 [2, 3]).drop 4)).2) =
    processBuffer (send_command HEADER_INPUT CMD_GET 1 [2, 3]) :=
  fragmentation_invariance 1 [2, 3] 4 (by decide) (by decide) (by decide)

/-- C5 (amended): for any garbage prefix containing no occurrence of
the marker pair `0xF0 0xA1` followed by one valid encoded inbound frame
with `2 ≤ len(payload) ≤ 255`, one feed decodes exactly one packet and
consumes the garbage (the remainder buffer is empty).  (As written the
claim is false for payloads of length 0 or 1: the frame then never
clears the scanner bound `i < len(buffer) - 6`, no packet is emitted
and the garbage stays in the buffer.) -/
theorem resync_garbage (G : List Nat) (f : Nat) (p : List Nat)
    (hng : ∀ j, j < G.length → ¬(G.getD j 0 = 0xf0 ∧ G.getD (j+1) 0 = 0xa1))
    (hf : f < 256) (hp : ∀ b ∈ p, b < 256) (h2 : 2 ≤ p.length)
    (h255 : p.length ≤ 255) :
    processBuffer (G ++ send_command HEADER_INPUT CMD_GET f p) = ([(f, p)], []) :=
  processBuffer_garbage G f p hng h2

/-- C5 witness: the theorem applied to garbage `[1, 0xF0]` (whose last
byte is even a stray `0xF0`) followed by a frame for fieldId 5. -/
theorem resync_garbage_witness :
    processBuffer ([1, 0xf0] ++ send_command HEADER_INPUT CMD_GET 5 [0, 0]) =
      ([(5, [0, 0])], []) :=
  resync_garbage [1, 0xf0] 5 [0, 0] (by decide) (by decide) (by decide)
    (by decide) (by decide)

/-- C5 counterexample: one garbage byte followed by a valid zero-length
payload frame yields zero packets, and the garbage byte is retained in
the buffer together with the frame — contradicting both the "exactly
one decoded packet" and the "garbage consumed" parts of the claim as
written. -/
theorem resync_garbage_counterexample :
    processBuffer ([0] ++ send_command HEADER_INPUT CMD_GET 0 []) =
      ([], [0, 0xf0, 0xa1, 0, 0, 0]) :=
  scan_stop _ 0 (by decide)

/-- C6 (amended): a 119-byte payload on fieldId 255 whose
protection-state byte (offset 108) is below 7 decodes in one call to
one batch update containing all of the bulk keys, with each 4-byte
field read little-endian at the stated offsets (0-3, 4-7, ..., 111-114,
115-118, with byte 110 skipped), the single bytes at offsets 96, 97,
98, 107, 108 and 109, and the protection-state string looked up from
the 7-entry table.  (A payload whose offset-108 byte is 7 or more
aborts the whole bulk decode and delivers nothing — the condition on
that byte is therefore part of "structurally valid".) -/
theorem bulk_decode_layout (c5 : List Nat) (hlen : c5.length = 119)
    (hps : c5.getD 108 0 < 7) :
    parseData 255 c5 =
      [("inputVoltage", PValue.float (bitsAt c5 0)),
       ("setVoltage", PValue.float (bitsAt c5 4)),
       ("setCurrent", PValue.float (bitsAt c5 8)),
       ("outputVoltage", PValue.float (bitsAt c5 12)),
       ("outputCurrent", PValue.float (bitsAt c5 16)),
       ("outputPower", PValue.float (bitsAt c5 20)),
       ("temperature", PValue.float (bitsAt c5 24)),
       ("group1setVoltage", PValue.float (bitsAt c5 28)),
       ("group1setCurrent", PValue.float (bitsAt c5 32)),
       ("group2setVoltage", PValue.float (bitsAt c5 36)),
       ("group2setCurrent", PValue.float (bitsAt c5 40)),
       ("group3setVoltage", PValue.float (bitsAt c5 44)),
       ("group3setCurrent", PValue.float (bitsAt c5 48)),
       ("group4setVoltage", PValue.float (bitsAt c5 52)),
       ("group4setCurrent", PValue.float (bitsAt c5 56)),
       ("group5setVoltage", PValue.float (bitsAt c5 60)),
       ("group5setCurrent", PValue.float (bitsAt c5 64)),
       ("group6setVoltage", PValue.float (bitsAt c5 68)),
       ("group6setCurrent", PValue.float (bitsAt c5 72)),
       ("overVoltageProtection", PValue.float (bitsAt c5 76)),
       ("overCurrentProtection", PValue.float (bitsAt c5 80)),
       ("overPowerProtection", PValue.float (bitsAt c5 84)),
       ("overTemperatureProtection", PValue.float (bitsAt c5 88)),
       ("lowVoltageProtection", PValue.float (bitsAt c5 92)),
       ("brightness", PValue.byteVal (c5.getD 96 0)),
       ("volume", PValue.byteVal (c5.getD 97 0)),
       ("meteringClosed", PValue.boolVal (decide (c5.getD 98 0 = 0))),
       ("outputCapacity", PValue.float (bitsAt c5 99)),
       ("outputEnergy", PValue.float (bitsAt c5 103)),
       ("outputClosed", PValue.boolVal (decide (c5.getD 107 0 = 1))),
       ("protectionState", PValue.strVal (PROTECTION_STATES.getD (c5.getD 108 0) "")),
       ("mode", PValue.strVal (if c5.getD 109 0 = 0 then "CC" else "CV")),
       ("upperLimitVoltage", PValue.float (bitsAt c5 111)),
       ("upperLimitCurrent", PValue.float (bitsAt c5 115))] := by
  simp [parseData, parse255_eval c5 hlen hps]

/-- C6 witness: the theorem applied to `sampleBulk`, whose sample
floats (12.0, 5.0, 1.5, 7.5, 28.5) round back exactly through the
pack/unpack pair: the delivered bit patterns are the `struct.pack`
images of the sample rationals, and `f32val` maps them back. -/
theorem bulk_decode_layout_witness :
    sampleBulk.length = 119 ∧ sampleBulk.getD 108 0 < 7 ∧
    parseData 255 sampleBulk =
      [("inputVoltage", PValue.float 1094713344),
       ("setVoltage", PValue.float 1084227584),
       ("setCurrent", PValue.float 1069547520),
       ("outputVoltage", PValue.float 1084227584),
       ("outputCurrent", PValue.float 1069547520),
       ("outputPower", PValue.float 1089470464),
       ("temperature", PValue.float 1105461248),
       ("group1setVoltage", PValue.float 0),
       ("group1setCurrent", PValue.float 0),
       ("group2setVoltage", PValue.float 0),
       ("group2setCurrent", PValue.float 0),
       ("group3setVoltage", PValue.float 0),
       ("group3setCurrent", PValue.float 0),
       ("group4setVoltage", PValue.float 0),
       ("group4setCurrent", PValue.float 0),
       ("group5setVoltage", PValue.float 0),
       ("group5setCurrent", PValue.float 0),
       ("group6setVoltage", PValue.float 0),
       ("group6setCurrent", PValue.float 0),
       ("overVoltageProtection", PValue.float 0),
       ("overCurrentProtection", PValue.float 0),
       ("overPowerProtection", PValue.float 0),
       ("overTemperatureProtection", PValue.float 0),
       ("lowVoltageProtection", PValue.float 0),
       ("brightness", PValue.byteVal 100),
       ("volume", PValue.byteVal 3),
       ("meteringClosed", PValue.boolVal true),
       ("outputCapacity", PValue.float 0),
       ("outputEnergy", PValue.float 0),
       ("outputClosed", PValue.boolVal true),
       ("protectionState", PValue.strVal "OCP"),
       ("mode", PValue.strVal "CV"),
       ("upperLimitVoltage", PValue.float 0),
       ("upperLimitCurrent", PValue.float 0)] ∧
    float32bits 12 = some (bitsAt sampleBulk 0) ∧
    f32val (bitsAt sampleBulk 0) = some 12 ∧
    float32bits (mkRat 57 2) = some (bitsAt sampleBulk 24) ∧
    f32val (bitsAt sampleBulk 24) = some (57/2) := by
  refine ⟨by decide, by decide, ?_, by decide, ?_, by decide, ?_⟩
  · rw [bulk_decode_layout sampleBulk (by decide) (by decide)]
    decide
  · have hb : bitsAt sampleBulk 0 = 1094713344 := by decide
    rw [hb]
    norm_num [f32val]
  · have hb : bitsAt sampleBulk 24 = 1105461248 := by decide
    rw [hb]
    norm_num [f32val]

/-- C7 (amended): the protection-state decode maps byte 0 to the empty
"no protection" string and byte 6 to "REP" via the fixed 7-entry table;
for every byte value 7 or more the out-of-range table index raises
inside the parse `try`, so the frame is dropped with no emission and no
error reaches the caller — the observable parse is total, but no
"unknown" value is ever produced. -/
theorem protection_state_decode :
    parseData 220 [0] = [("protectionState", PValue.strVal "")] ∧
    parseData 220 [6] = [("protectionState", PValue.strVal "REP")] ∧
    ∀ b rest, 7 ≤ b → parseData 220 (b :: rest) = [] := by
  refine ⟨by decide, by decide, ?_⟩
  intro b rest hb
  have h7 : PROTECTION_STATES.length ≤ b := by
    have hl : PROTECTION_STATES.length = 7 := rfl
    omega
  simp [parseData, List.getElem?_eq_none h7]

/-- C7 witness: the theorem applied at byte 9 with a trailing payload
byte. -/
theorem protection_state_decode_witness :
    (7 : Nat) ≤ 9 ∧ parseData 220 [9, 1] = [] :=
  ⟨by decide, protection_state_decode.2.2 9 [1] (by decide)⟩

/-- C7 counterexample: at byte 7 the parse emits nothing at all — there
is no "unknown" protection-state result — and the raw 7-entry table
lookup itself is out of range, not total over byte values. -/
theorem protection_state_no_unknown :
    parseData 220 [7] = [] ∧ PROTECTION_STATES[(7 : Nat)]? = none := by
  exact ⟨by decide, by decide⟩

/-- C8 (amended): a field failure inside a packet aborts the whole
packet: an out-of-range protection-state byte in a bulk fieldId-255
payload yields zero delivered fields (the callback is not invoked),
though the failure still does not propagate to the caller; and a
non-ASCII byte in a string field is not a failure at all — the byte is
silently dropped by `errors="ignore"` and the filtered string is
delivered. -/
theorem field_failure_behavior :
    (∀ c5 : List Nat, c5.length = 119 → 7 ≤ c5.getD 108 0 →
      parseData 255 c5 = []) ∧
    (∀ bs : List Nat, parseData 222 bs =
      [("modelName", PValue.strVal (asciiIgnore bs))]) := by
  constructor
  · intro c5 hl hp8
    simp [parseData, parse255_bad_protection c5 hl hp8]
  · intro bs
    simp [parseData]

/-- C8 witness: the theorem applied to `badBulk` (protection byte 7)
and to the byte string `[72, 200, 105]`, whose non-ASCII byte 200 is
dropped, decoding to "Hi". -/
theorem field_failure_behavior_witness :
    parseData 255 badBulk = [] ∧
    parseData 222 [72, 200, 105] = [("modelName", PValue.strVal "Hi")] :=
  ⟨field_failure_behavior.1 badBulk (by decide) (by decide),
   field_failure_behavior.2 [72, 200, 105]⟩

/-- C8 counterexample: `badBulk2` is a 119-byte bulk payload in which
every field except the protection state decodes individually (its
inputVoltage bytes carry 12.0), yet the parse delivers none of them —
contradicting "only that field is skipped: the other fields decoded
from the same packet are still delivered". -/
theorem bulk_field_failure_drops_all :
    badBulk2.length = 119 ∧ badBulk2.getD 108 0 = 9 ∧
    unpack4 ((badBulk2.drop 0).take 4) = some 1094713344 ∧
    parseData 255 badBulk2 = [] := by
  exact ⟨by decide, by decide, by decide, by decide⟩

/-- C9 (code bug): the initialization sequence is, in order, the
stream-enable toggle with payload `[1]`, the baud-select command, GETs
for model name, hardware version and firmware version, and the bulk
get-all — but the baud-select payload byte is 5, while the comment in
`_init_command` says the index of the configured rate 115200 is 4. -/
theorem init_command_sequence :
    init_commands =
      [[0xf1, 0xc1, 0, 1, 1, 2],
       [0xf1, 0xb0, 0, 1, 5, 6],
       [0xf1, 0xa1, 222, 1, 0, 223],
       [0xf1, 0xa1, 223, 1, 0, 224],
       [0xf1, 0xa1, 224, 1, 0, 225],
       [0xf1, 0xa1, 255, 1, 0, 0]] ∧
    (init_commands.getD 1 []).getD 4 0 = 5 ∧ (5 : Nat) ≠ 4 := by
  exact ⟨by decide, by decide, by decide⟩

/-- C10 (amended): the parser has decode branches for exactly fourteen
field ids (not sixteen); every checksum-valid inbound frame whose
fieldId is outside that set and whose payload has `2 ≤ len ≤ 255` is
consumed by the scanner, decodes to nothing, and triggers zero callback
invocations with no error — in particular the SET-target ids
(193, 194, 197-216) decode to nothing.  (A frame with payload shorter
than 2 is not consumed within the same feed, by the scanner bound.) -/
theorem unknown_field_ignored (f : Nat) (p : List Nat)
    (hf : f < 256) (hslot : f ∉ DECODE_SLOTS) (hp : ∀ b ∈ p, b < 256)
    (h2 : 2 ≤ p.length) (h255 : p.length ≤ 255) :
    processBuffer (send_command HEADER_INPUT CMD_GET f p) = ([(f, p)], []) ∧
    parseData f p = [] ∧
    feedUpdates (send_command HEADER_INPUT CMD_GET f p) = [] := by
  have he := processBuffer_encode f p h2
  have hpd := parseData_not_slot f hslot p
  refine ⟨he, hpd, ?_⟩
  rw [feedUpdates, he]
  simp [hpd]

/-- C10 witness: the theorem applied at the SET-target fieldId 193 with
payload `[0, 0]`. -/
theorem unknown_field_ignored_witness :
    processBuffer (send_command HEADER_INPUT CMD_GET 193 [0, 0]) =
      ([(193, [0, 0])], []) ∧
    parseData 193 [0, 0] = [] ∧
    feedUpdates (send_command HEADER_INPUT CMD_GET 193 [0, 0]) = [] :=
  unknown_field_ignored 193 [0, 0] (by decide) (by decide) (by decide)
    (by decide) (by decide)

/-- C10 counterexample: the recognized decode-slot list has fourteen
entries, not sixteen; and a checksum-valid frame for the unrecognized
fieldId 193 with a one-byte payload is not consumed by the feed that
received it (the scanner bound leaves it in the buffer). -/
theorem decode_slots_count :
    DECODE_SLOTS.length = 14 ∧ ¬ DECODE_SLOTS.length = 16 ∧
    processBuffer (send_command HEADER_INPUT CMD_GET 193 [0]) =
      ([], [0xf0, 0xa1, 193, 1, 0, 194]) :=
  ⟨by decide, by decide, scan_stop _ 0 (by decide)⟩

/-- C6 counterexample: `badBulk3` has the full 119-byte bulk layout,
but its protection-state byte is 200, so the decode produces no batch
update at all — contradicting the claim that every structurally valid
119-byte payload on fieldId 255 yields a batch with all bulk keys. -/
theorem bulk_decode_missing_keys :
    badBulk3.length = 119 ∧ badBulk3.getD 108 0 = 200 ∧
    parseData 255 badBulk3 = [] := by
  exact ⟨by decide, by decide, by decide⟩
